import Mathlib

/-!
Verification of src/ssh_comm/surface_computer.py.

The thruster interlock (class ThrusterControl) is embedded directly from the
source. The GUI text box (class SettableText) is modelled as the current text
it holds together with the trace of all set_text calls, so theorems can speak
both about what is displayed and about what was emitted.

The marker dropper (class MarkerDropper) and the SSH transport (class SSH) are
imported by the source from modules that are not part of this repository
snapshot; where a claim depends on them they are modelled from the spec, with
a doc comment saying so. The facade methods ControlWindow.drop_marker,
ControlWindow.read_temp_sensor and ControlWindow.read_ph_sensor are embedded
from the source, parameterized by the remote-invocation function.
-/

namespace SurfaceComputer

/-- State of one ThrusterControl object (surface_computer.py lines 24-83).
Fields forward and backward are the two held flags; text_output is the current
content of the SettableText box; emitted is the trace of set_text calls, oldest
first (instrumentation of the display, not extra program state). -/
structure ThrusterControl where
  forward : Bool
  backward : Bool
  text_output : String
  emitted : List String
  deriving DecidableEq

/-- SettableText.set_text: replace the text in the box with newtext.
The trace records the write. -/
def set_text (s : ThrusterControl) (newtext : String) : ThrusterControl :=
  { s with text_output := newtext, emitted := s.emitted ++ [newtext] }

/-- ThrusterControl.thruster_forward (lines 44-54): only acts when neither
direction is held; then writes "Thruster Forward" and sets forward. -/
def thruster_forward (s : ThrusterControl) : ThrusterControl :=
  if !s.forward && !s.backward then
    { set_text s "Thruster Forward" with forward := true }
  else s

/-- ThrusterControl.thruster_backward (lines 56-59): only acts when neither
direction is held; then writes "Thruster Backward" and sets backward. -/
def thruster_backward (s : ThrusterControl) : ThrusterControl :=
  if !s.forward && !s.backward then
    { set_text s "Thruster Backward" with backward := true }
  else s

/-- ThrusterControl.thruster_forward_off (lines 61-74): clears forward; if
backward is not held it writes "Thruster Off", otherwise it calls
thruster_backward. -/
def thruster_forward_off (s : ThrusterControl) : ThrusterControl :=
  let s1 := { s with forward := false }
  if !s1.backward then set_text s1 "Thruster Off"
  else thruster_backward s1

/-- ThrusterControl.thruster_backward_off (lines 77-83): clears backward; if
forward is not held it writes "Thruster Off", otherwise it calls
thruster_forward. -/
def thruster_backward_off (s : ThrusterControl) : ThrusterControl :=
  let s1 := { s with backward := false }
  if !s1.forward then set_text s1 "Thruster Off"
  else thruster_forward s1

/-- ThrusterControl constructor (lines 27-42): both flags start false, then
thruster_forward_off and thruster_backward_off run once each. The tkinter
text box starts empty. -/
def ThrusterControl.init : ThrusterControl :=
  thruster_backward_off (thruster_forward_off
    { forward := false, backward := false, text_output := "", emitted := [] })

/-- The key events wired to the ThrusterControl handlers in
ControlWindow.bound key handlers (lines 165-177). -/
inductive TEvent where
  | pressF
  | pressB
  | releaseF
  | releaseB
  deriving DecidableEq

/-- Dispatch of one key event to its bound handler. -/
def step (s : ThrusterControl) : TEvent → ThrusterControl
  | TEvent.pressF => thruster_forward s
  | TEvent.pressB => thruster_backward s
  | TEvent.releaseF => thruster_forward_off s
  | TEvent.releaseB => thruster_backward_off s

/-- Run a sequence of key events from the freshly constructed state. -/
def run (evs : List TEvent) : ThrusterControl :=
  evs.foldl step ThrusterControl.init

/-- The direction enum of the spec data model. -/
inductive Direction where
  | FORWARD
  | BACKWARD
  | OFF
  deriving DecidableEq

/-- Derived effective state of the interlock (spec section 3): FORWARD if
forwardHeld, else BACKWARD if backwardHeld, else OFF. -/
def effectiveState (s : ThrusterControl) : Direction :=
  if s.forward then Direction.FORWARD
  else if s.backward then Direction.BACKWARD
  else Direction.OFF

lemma step_preserves_exclusive (s : ThrusterControl) (e : TEvent)
    (h : (s.forward && s.backward) = false) :
    ((step s e).forward && (step s e).backward) = false := by
  cases e <;>
    simp only [step, thruster_forward, thruster_backward, thruster_forward_off,
      thruster_backward_off, set_text] <;>
    cases hf : s.forward <;> cases hb : s.backward <;>
    simp_all

lemma foldl_preserves_exclusive (evs : List TEvent) (s : ThrusterControl)
    (h : (s.forward && s.backward) = false) :
    ((evs.foldl step s).forward && (evs.foldl step s).backward) = false := by
  induction evs generalizing s with
  | nil => exact h
  | cons e evs ih => exact ih _ (step_preserves_exclusive s e h)

/-- Claim C1: for every sequence of press/release events applied to a
ThrusterControl starting from its initial state, the flags forward and
backward are never both true; the interlock never reports both FORWARD and
BACKWARD simultaneously active. -/
theorem C1_interlock_exclusive (evs : List TEvent) :
    ((run evs).forward && (run evs).backward) = false :=
  foldl_preserves_exclusive evs ThrusterControl.init (by decide)

/-- Claim C9: constructing a ThrusterControl leaves both held flags false and
sets the status display text to "Thruster Off" before any event is processed. -/
theorem C9_init_state :
    ThrusterControl.init.forward = false
    ∧ ThrusterControl.init.backward = false
    ∧ ThrusterControl.init.text_output = "Thruster Off" :=
  ⟨rfl, rfl, rfl⟩

/-- The three propulsion status texts the handlers can write. -/
def allowedText (t : String) : Bool :=
  t == "Thruster Forward" || t == "Thruster Backward" || t == "Thruster Off"

lemma step_preserves_allowed (s : ThrusterControl) (e : TEvent)
    (h : s.emitted.all allowedText = true) :
    (step s e).emitted.all allowedText = true := by
  cases e <;>
    simp only [step, thruster_forward, thruster_backward, thruster_forward_off,
      thruster_backward_off, set_text] <;>
    cases hf : s.forward <;> cases hb : s.backward <;>
    simp_all [List.all_append, allowedText]

lemma foldl_preserves_allowed (evs : List TEvent) (s : ThrusterControl)
    (h : s.emitted.all allowedText = true) :
    (evs.foldl step s).emitted.all allowedText = true := by
  induction evs generalizing s with
  | nil => exact h
  | cons e evs ih => exact ih _ (step_preserves_allowed s e h)

/-- Claim C10: for every sequence of press/release events from construction
onward, every text the interlock writes to its status display is one of
"Thruster Forward", "Thruster Backward", "Thruster Off". -/
theorem C10_only_three_texts (evs : List TEvent) :
    (run evs).emitted.all allowedText = true :=
  foldl_preserves_allowed evs ThrusterControl.init (by decide)

/-- Claim C5: press from effective state OFF sets the matching flag and emits
the matching text; a press while either direction is held changes nothing and
emits nothing, so a doubled press does not re-emit. -/
theorem C5_press_from_rest (s : ThrusterControl) :
    (effectiveState s = Direction.OFF →
      (thruster_forward s).forward = true
      ∧ (thruster_forward s).backward = s.backward
      ∧ (thruster_forward s).text_output = "Thruster Forward"
      ∧ (thruster_forward s).emitted = s.emitted ++ ["Thruster Forward"]
      ∧ (thruster_backward s).backward = true
      ∧ (thruster_backward s).forward = s.forward
      ∧ (thruster_backward s).text_output = "Thruster Backward"
      ∧ (thruster_backward s).emitted = s.emitted ++ ["Thruster Backward"]
      ∧ thruster_forward (thruster_forward s) = thruster_forward s
      ∧ thruster_backward (thruster_backward s) = thruster_backward s)
    ∧ ((s.forward || s.backward) = true →
      thruster_forward s = s ∧ thruster_backward s = s) := by
  constructor
  · intro h
    have hfb : s.forward = false ∧ s.backward = false := by
      cases hf : s.forward <;> cases hb : s.backward <;>
        simp_all [effectiveState]
    simp [thruster_forward, thruster_backward, set_text, hfb.1, hfb.2]
  · intro h
    rcases Bool.or_eq_true_iff.mp h with hf | hb
    · simp [thruster_forward, thruster_backward, hf]
    · simp [thruster_forward, thruster_backward, hb]

/-- Witness for C5 at concrete states: the initial state is at rest, so a
press sets the flag and emits the text, and a doubled press is inert; a press
of the other direction on the pressed state is also inert. -/
theorem C5_witness :
    (thruster_forward ThrusterControl.init).forward = true
    ∧ (thruster_forward ThrusterControl.init).text_output = "Thruster Forward"
    ∧ thruster_forward (thruster_forward ThrusterControl.init)
        = thruster_forward ThrusterControl.init
    ∧ thruster_backward (thruster_forward ThrusterControl.init)
        = thruster_forward ThrusterControl.init :=
  ⟨((C5_press_from_rest ThrusterControl.init).1 (by decide)).1,
   ((C5_press_from_rest ThrusterControl.init).1 (by decide)).2.2.1,
   ((C5_press_from_rest ThrusterControl.init).1 (by decide)).2.2.2.2.2.2.2.2.1,
   ((C5_press_from_rest (thruster_forward ThrusterControl.init)).2 (by decide)).2⟩

/-- Counterexample to claim C3 as stated: after press(BACKWARD) the state has
backwardHeld true, and the release(FORWARD) handler emits nothing at all (the
trace of set_text calls is unchanged), so the display text "Thruster Backward"
is not (re-)emitted. The guard of thruster_backward, which the handler calls,
fails because backward is already held. -/
theorem C3_counterexample :
    (run [TEvent.pressB]).backward = true
    ∧ (thruster_forward_off (run [TEvent.pressB])).emitted
        = (run [TEvent.pressB]).emitted := by
  constructor <;> rfl

/-- Claim C3 amended: for every state in which backwardHeld is true,
release(FORWARD) sets forwardHeld false, the effective state becomes BACKWARD,
but no display text is emitted (the display keeps its previous content, which
on reachable states already reads "Thruster Backward"); symmetrically for
release(BACKWARD) while forwardHeld is true. -/
theorem C3_release_amended (s : ThrusterControl) :
    (s.backward = true →
      (thruster_forward_off s).forward = false
      ∧ (thruster_forward_off s).backward = true
      ∧ effectiveState (thruster_forward_off s) = Direction.BACKWARD
      ∧ (thruster_forward_off s).emitted = s.emitted
      ∧ (thruster_forward_off s).text_output = s.text_output)
    ∧ (s.forward = true →
      (thruster_backward_off s).backward = false
      ∧ (thruster_backward_off s).forward = true
      ∧ effectiveState (thruster_backward_off s) = Direction.FORWARD
      ∧ (thruster_backward_off s).emitted = s.emitted
      ∧ (thruster_backward_off s).text_output = s.text_output) := by
  constructor
  · intro hb
    simp [thruster_forward_off, thruster_backward, set_text, effectiveState, hb]
  · intro hf
    simp [thruster_backward_off, thruster_forward, set_text, effectiveState, hf]

/-- Witness for the amended C3 at concrete reachable states. -/
theorem C3_release_amended_witness :
    (thruster_forward_off (run [TEvent.pressB])).backward = true
    ∧ effectiveState (thruster_forward_off (run [TEvent.pressB]))
        = Direction.BACKWARD
    ∧ (thruster_backward_off (run [TEvent.pressF])).forward = true
    ∧ effectiveState (thruster_backward_off (run [TEvent.pressF]))
        = Direction.FORWARD :=
  ⟨((C3_release_amended (run [TEvent.pressB])).1 (by decide)).2.1,
   ((C3_release_amended (run [TEvent.pressB])).1 (by decide)).2.2.1,
   ((C3_release_amended (run [TEvent.pressF])).2 (by decide)).2.1,
   ((C3_release_amended (run [TEvent.pressF])).2 (by decide)).2.2.1⟩

/-- Result of one remote invocation (spec section 3, InvocationResult): either
the captured textual output, or a transport failure. In the source a transport
failure is an exception raised by SSH.exec_and_print, which aborts the calling
method before any statement after the call runs. -/
inductive InvocationResult where
  | Ok (text : String)
  | Err (failure : String)
  deriving DecidableEq

/-- Whether an invocation succeeded. -/
def InvocationResult.isOk : InvocationResult → Bool
  | InvocationResult.Ok _ => true
  | InvocationResult.Err _ => false

/-- Modelled from the spec: the MarkerDropper class is imported from a module
missing from this repository snapshot. Per spec section 4.3 each payload class
owns an ordered list of position tokens and a cursor starting at 0; the
constructor call in the source passes red_markers and black_markers lists. -/
structure MarkerDropper where
  red_markers : List Nat
  black_markers : List Nat
  red_cursor : Nat
  black_cursor : Nat
  deriving DecidableEq

/-- Modelled from the spec: the remote-invocation string composed by the
sequencer, parameterized by the next unused position token. -/
def mk_marker_command (position : Nat) : String :=
  "drop_marker " ++ toString position

/-- Modelled from the spec: MarkerDropper.drop_red_marker returns the pair
(command, hasRemaining); exhausted means the cursor has passed the last
position, and then no command is produced and no state changes. The cursor is
not advanced by firing itself. -/
def drop_red_marker (m : MarkerDropper) : Option String × Bool :=
  match m.red_markers.get? m.red_cursor with
  | some p => (some (mk_marker_command p), true)
  | none => (none, false)

/-- Modelled from the spec: MarkerDropper.drop_black_marker, as for red. -/
def drop_black_marker (m : MarkerDropper) : Option String × Bool :=
  match m.black_markers.get? m.black_cursor with
  | some p => (some (mk_marker_command p), true)
  | none => (none, false)

/-- Modelled from the spec: MarkerDropper.success advances the cursor of the
class fired by the preceding drop call by exactly one (spec confirm(class);
the source call site carries the class in the red argument of drop_marker). -/
def success (red : Bool) (m : MarkerDropper) : MarkerDropper :=
  if red then { m with red_cursor := m.red_cursor + 1 }
  else { m with black_cursor := m.black_cursor + 1 }

/-- The state the facade mutates through drop_marker: the interlock and the
marker sequencer owned by the ControlWindow. -/
structure ControlState where
  thruster : ThrusterControl
  markerdropper : MarkerDropper
  deriving DecidableEq

/-- Outcome of one drop_marker call as seen by the caller: the remote output
of a dropped marker, a depleted magazine (normal return with no invocation),
or a propagated transport failure. -/
inductive DropResult where
  | dropped (output : String)
  | depleted
  | failed (failure : String)
  deriving DecidableEq

/-- The class dispatch at the top of ControlWindow.drop_marker (lines
224-227): red selects drop_red_marker, otherwise drop_black_marker. -/
def fireOf (red : Bool) (m : MarkerDropper) : Option String × Bool :=
  if red then drop_red_marker m else drop_black_marker m

/-- Cursor of the selected class. -/
def cursorOf (red : Bool) (m : MarkerDropper) : Nat :=
  if red then m.red_cursor else m.black_cursor

/-- ControlWindow.drop_marker (lines 217-231), parameterized by the remote
invocation function standing for SSH.exec_and_print. If has_markers, the
command is invoked and on normal return success() runs; a transport failure
aborts before success(), leaving all state as it was. The third component is
the list of commands sent over the link during the call. -/
def drop_marker (invoke : String → InvocationResult) (red : Bool)
    (w : ControlState) : DropResult × ControlState × List String :=
  let fired := fireOf red w.markerdropper
  if fired.2 then
    match invoke (fired.1.getD "") with
    | InvocationResult.Ok out =>
        (DropResult.dropped out,
         { w with markerdropper := success red w.markerdropper },
         [fired.1.getD ""])
    | InvocationResult.Err e =>
        (DropResult.failed e, w, [fired.1.getD ""])
  else
    (DropResult.depleted, w, [])

/-- Claim C2: success() is called (the cursor of the fired class advances by
one) exactly when a command was produced and its invocation succeeded; on a
transport failure nothing is confirmed, the whole state is unchanged, and a
retry of drop_marker for the same class is identical, invoking the same
command. -/
theorem C2_confirm_iff_invoke_ok (invoke : String → InvocationResult)
    (red : Bool) (w : ControlState) :
    (cursorOf red (drop_marker invoke red w).2.1.markerdropper
        = cursorOf red w.markerdropper + 1
      ↔ ((fireOf red w.markerdropper).2 = true
          ∧ (invoke ((fireOf red w.markerdropper).1.getD "")).isOk = true))
    ∧ (∀ e, (fireOf red w.markerdropper).2 = true →
        invoke ((fireOf red w.markerdropper).1.getD "") = InvocationResult.Err e →
        (drop_marker invoke red w).1 = DropResult.failed e
        ∧ (drop_marker invoke red w).2.1 = w
        ∧ (drop_marker invoke red w).2.2
            = [(fireOf red w.markerdropper).1.getD ""]
        ∧ drop_marker invoke red (drop_marker invoke red w).2.1
            = drop_marker invoke red w) := by
  rcases hm : fireOf red w.markerdropper with ⟨cmd, hasm⟩
  constructor
  · cases hasm
    · cases red <;> simp [drop_marker, hm, cursorOf]
    · cases hi : invoke (cmd.getD "")
      case Ok out =>
        cases red <;>
          simp [drop_marker, hm, hi, cursorOf, success, InvocationResult.isOk]
      case Err e0 =>
        cases red <;>
          simp [drop_marker, hm, hi, cursorOf, InvocationResult.isOk]
  · intro e h1 h2
    cases hasm
    · simp at h1
    · simp at h2
      simp [drop_marker, hm, h2]

/-- An initial facade state with the default magazines of the source
constructor: red=[1, 2, 3], black=[5, 6, 7], both cursors 0. -/
def w0 : ControlState :=
  { thruster := ThrusterControl.init,
    markerdropper :=
      { red_markers := [1, 2, 3], black_markers := [5, 6, 7],
        red_cursor := 0, black_cursor := 0 } }

/-- An invocation function whose transport is down. -/
def invErr : String → InvocationResult :=
  fun _ => InvocationResult.Err "transport down"

/-- An invocation function that always succeeds. -/
def invOk : String → InvocationResult :=
  fun _ => InvocationResult.Ok "done"

/-- Witness for C2: with the transport down, a red drop fails, leaves the
state unchanged, invoked exactly the first red command, and a retry is
identical. -/
theorem C2_witness :
    (drop_marker invErr true w0).1 = DropResult.failed "transport down"
    ∧ (drop_marker invErr true w0).2.1 = w0
    ∧ (drop_marker invErr true w0).2.2 = ["drop_marker 1"]
    ∧ drop_marker invErr true (drop_marker invErr true w0).2.1
        = drop_marker invErr true w0 :=
  (C2_confirm_iff_invoke_ok invErr true w0).2 "transport down"
    (by decide) rfl

/-- Claim C4: when the fired class reports no remaining markers, drop_marker
performs no remote invocation and no confirm; the result is the depletion
outcome and the whole facade state, interlock included, is returned unchanged. -/
theorem C4_depleted_no_invoke (invoke : String → InvocationResult)
    (red : Bool) (w : ControlState)
    (h : (fireOf red w.markerdropper).2 = false) :
    drop_marker invoke red w = (DropResult.depleted, w, []) := by
  simp [drop_marker, h]

/-- A facade state whose red magazine is exhausted (cursor past the last of
three positions). -/
def w1 : ControlState :=
  { thruster := ThrusterControl.init,
    markerdropper :=
      { red_markers := [1, 2, 3], black_markers := [5, 6, 7],
        red_cursor := 3, black_cursor := 0 } }

/-- Witness for C4 at the exhausted state. -/
theorem C4_witness :
    drop_marker invOk true w1 = (DropResult.depleted, w1, []) :=
  C4_depleted_no_invoke invOk true w1 (by decide)

/-- Claim C8: a drop on a depleted class returns normally with the depletion
outcome, which is distinct from every transport-failure outcome, so the
caller can distinguish the two. -/
theorem C8_depletion_distinguishable (invoke : String → InvocationResult)
    (red : Bool) (w : ControlState)
    (h : (fireOf red w.markerdropper).2 = false) :
    (drop_marker invoke red w).1 = DropResult.depleted
    ∧ ∀ e, (drop_marker invoke red w).1 ≠ DropResult.failed e := by
  constructor
  · simp [drop_marker, h]
  · intro e
    simp [drop_marker, h]

/-- Witness for C8 at the exhausted state. -/
theorem C8_witness :
    (drop_marker invErr true w1).1 = DropResult.depleted
    ∧ (drop_marker invErr true w1).1 ≠ DropResult.failed "transport down" :=
  ⟨(C8_depletion_distinguishable invErr true w1 (by decide)).1,
   (C8_depletion_distinguishable invErr true w1 (by decide)).2 "transport down"⟩

/-- The temperature display template of ControlWindow.TEMP_TEXT (line 94):
format substitutes the reading into the READING slot. -/
def TEMP_TEXT (reading : String) : String :=
  "Last Temperature\nReading: " ++ reading

/-- The pH display template of ControlWindow.PH_TEXT (line 95). -/
def PH_TEXT (reading : String) : String :=
  "Last pH Reading: \n" ++ reading

/-- ControlWindow.read_temp_sensor (lines 191-202), parameterized by the
remote invocation function. Returns the command sent over the link and, when
the invocation returned normally, the new content of the temperature box; a
transport failure aborts before the display update. -/
def read_temp_sensor (invoke : String → InvocationResult) :
    String × Option String :=
  ("python ~/temp_reading.py",
   match invoke "python ~/temp_reading.py" with
   | InvocationResult.Ok reading => some (TEMP_TEXT reading)
   | InvocationResult.Err _ => none)

/-- ControlWindow.read_ph_sensor (lines 204-215), as for temperature. -/
def read_ph_sensor (invoke : String → InvocationResult) :
    String × Option String :=
  ("python ph_reading.py",
   match invoke "python ph_reading.py" with
   | InvocationResult.Ok reading => some (PH_TEXT reading)
   | InvocationResult.Err _ => none)

/-- Claim C7: the temperature read always invokes exactly
python tilde-slash-temp_reading.py and the pH read exactly python
ph_reading.py, and every textual result r of the invocation is surfaced
unmodified as the suffix of the fixed display template of its kind. -/
theorem C7_sensor_reads (invoke : String → InvocationResult) :
    (read_temp_sensor invoke).1 = "python ~/temp_reading.py"
    ∧ (read_ph_sensor invoke).1 = "python ph_reading.py"
    ∧ (∀ r, invoke "python ~/temp_reading.py" = InvocationResult.Ok r →
        (read_temp_sensor invoke).2
          = some ("Last Temperature\nReading: " ++ r))
    ∧ (∀ r, invoke "python ph_reading.py" = InvocationResult.Ok r →
        (read_ph_sensor invoke).2
          = some ("Last pH Reading: \n" ++ r)) := by
  refine ⟨rfl, rfl, ?_, ?_⟩
  · intro r h
    simp [read_temp_sensor, TEMP_TEXT, h]
  · intro r h
    simp [read_ph_sensor, PH_TEXT, h]

/-- An invocation function returning a fixed sensor reading. -/
def invReading : String → InvocationResult :=
  fun _ => InvocationResult.Ok "21.5"

/-- Witness for C7 at a concrete invocation function. -/
theorem C7_witness :
    (read_temp_sensor invReading).2
      = some ("Last Temperature\nReading: " ++ "21.5")
    ∧ (read_ph_sensor invReading).2
      = some ("Last pH Reading: \n" ++ "21.5") :=
  ⟨(C7_sensor_reads invReading).2.2.1 "21.5" rfl,
   (C7_sensor_reads invReading).2.2.2 "21.5" rfl⟩

/-- A host and port pair, as the address tuples of ControlWindow (lines
101-103). -/
structure Addr where
  host : String
  port : Nat
  deriving DecidableEq

/-- Modelled from the spec: SSH.COMPANION, the address of the primary node
(the Pi 3) as seen by the surface computer; the SSH module is missing from
this repository snapshot, so the address is an abstract constant. -/
def COMPANION_HOST : String := "companion"

/-- Modelled from the spec: SSH.ZERO.ip, the address of the secondary node
(the Pi Zero) as seen by the primary node. -/
def ZERO_HOST : String := "zero"

/-- One network-setup action of ControlWindow (lines 97-105). directOpen is
an SSH constructor call without a sock, which opens its own network
connection; channelOpen is transport.open_channel on the already-open primary
session, with a kind, a destination and a source address; sockWrap is an SSH
constructor call given an existing channel as sock, which (modelled from the
spec: the SSH module is missing) carries its traffic inside that channel and
opens no network connection of its own. -/
inductive LinkEvent where
  | directOpen (target : Addr)
  | channelOpen (kind : String) (dest : Addr) (src : Addr)
  | sockWrap (target : Addr)
  deriving DecidableEq

/-- The sequence of network-setup actions performed by ControlWindow
construction (lines 97-105): a direct session to the companion; then, only
when use_zero is set, a direct-tcpip channel inside that session from the
companion address to the zero address, and the zero link built over that
channel. -/
def control_window_init_links (use_zero : Bool) : List LinkEvent :=
  let companion_addr : Addr := { host := COMPANION_HOST, port := 22 }
  if use_zero then
    let zero_addr : Addr := { host := ZERO_HOST, port := 22 }
    [LinkEvent.directOpen companion_addr,
     LinkEvent.channelOpen "direct-tcpip" zero_addr companion_addr,
     LinkEvent.sockWrap zero_addr]
  else
    [LinkEvent.directOpen companion_addr]

/-- Whether a setup action opens an independent network connection to the
given host. -/
def opensDirectTo (host : String) : LinkEvent → Bool
  | LinkEvent.directOpen t => t.host == host
  | _ => false

/-- Claim C6: with the secondary node enabled, its link is built over a
channel opened inside the already-open primary session, whose destination is
the secondary address and port and whose source endpoint is the primary peer
address; no setup action opens an independent network connection to the
secondary host. -/
theorem C6_tunneled_secondary :
    control_window_init_links true
      = [LinkEvent.directOpen { host := COMPANION_HOST, port := 22 },
         LinkEvent.channelOpen "direct-tcpip"
           { host := ZERO_HOST, port := 22 }
           { host := COMPANION_HOST, port := 22 },
         LinkEvent.sockWrap { host := ZERO_HOST, port := 22 }]
    ∧ (control_window_init_links true).all
        (fun e => !opensDirectTo ZERO_HOST e) = true := by
  constructor
  · rfl
  · decide

end SurfaceComputer
